import Mathlib

set_option maxRecDepth 8192

/-!
Verification development for the nodegui maintainer code-generation tool.

The program under study reads a block of annotated comment lines
(`// CLASS: Name` or `// PROP: Name` followed by `// TODO: <signature>` lines),
parses each signature against a closed type registry, and emits four output
sections (C++ declaration, Napi registration, C++ body, TS body).

This file is a shallow embedding of the most evolved generator source
(src/unnamed/part_000).  JavaScript strings are modelled as Lean `String`
values; JavaScript string primitives (`trim`, `split`, `substr`, `slice`,
indexing, `toLowerCase`) are re-implemented below on `List Char` with the
semantics of the ECMAScript operations restricted to the ASCII inputs the
tool manipulates.  Thrown JavaScript values are modelled with an explicit
`Thrown` type and `Except`; an uncaught throw surfaces as `Except.error`.
-/

/-! ## JavaScript string primitives -/

/-- Characters treated as whitespace by `String.prototype.trim` and by the
regex class `\s` (ASCII portion, which is all the tool ever meets). -/
def isJsSpace (c : Char) : Bool :=
  c = ' ' || c = '\t' || c = '\n' || c = '\r' || c = '\x0b' || c = '\x0c'

/-- Model of `String.prototype.trim`. -/
def jsTrim (s : String) : String :=
  String.mk ((((s.toList.dropWhile isJsSpace).reverse).dropWhile isJsSpace).reverse)

/-- Model of `String.prototype.split` with a single-character separator.
Like the ECMAScript operation it always returns at least one (possibly
empty) group and keeps empty groups. -/
def splitChar (sep : Char) : List Char → List (List Char)
  | [] => [[]]
  | c :: cs =>
    let r := splitChar sep cs
    if c = sep then [] :: r
    else
      match r with
      | g :: gs => (c :: g) :: gs
      | [] => [[c]]

/-- `inputString.split('\n')` from `process`. -/
def jsSplitLines (s : String) : List String :=
  (splitChar '\n' s.toList).map String.mk

/-- Does the character list start with the given literal? -/
def listStartsWith : List Char → List Char → Bool
  | _, [] => true
  | [], _ :: _ => false
  | c :: cs, p :: ps => c = p && listStartsWith cs ps

/-- Model of `Array.prototype.join('')`. -/
def strJoin : List String → String
  | [] => ""
  | x :: xs => x ++ strJoin xs

/-- Model of `Array.prototype.join(sep)`. -/
def joinSep (sep : String) : List String → String
  | [] => ""
  | [x] => x
  | x :: xs => x ++ sep ++ joinSep sep xs

/-! ## Thrown values and result shapes -/

/-- A thrown JavaScript value.  The generator throws two shapes of value:
`ExpandedMethodFailedResult` objects (tagged `type: 'failed'` with a string
`message`) from `parseMethodSignature`, and `Error`/`TypeError` objects from
the emitters and from property accesses on `undefined`. -/
inductive Thrown where
  | failedResult (message : String)
  | jsError (name : String) (message : String)
deriving DecidableEq, Repr

/-- How a thrown value renders inside a template literal (`ToString`):
a plain object renders as `[object Object]`, an `Error` renders as
`name: message`. -/
def Thrown.render : Thrown → String
  | .failedResult _ => "[object Object]"
  | .jsError n m => n ++ ": " ++ m

/-- The `message` field of a `type: 'failed'` result as the batch driver
sees it: `parseMethodSignature` stores a string there, but `expandMethod`
(part_000 line 124) stores the *whole caught value* there. -/
inductive FailMessage where
  | strMsg (m : String)
  | objMsg (t : Thrown)
deriving DecidableEq, Repr

/-- Rendering of the `message` field inside `` log(`>>> ERROR: ${result.message}`) ``. -/
def FailMessage.render : FailMessage → String
  | .strMsg m => m
  | .objMsg t => t.render

/-- `ExpandedMethodResult` as the batch driver's `switch (result.type)`
discriminates it: tag `'ok'`, tag `'failed'`, or a raw thrown `Error`
returned by `expandProperty`'s `catch` whose `type` field is `undefined`
and therefore matches neither case. -/
inductive ExpandedMethodResult where
  | ok (methodDeclaration napiInit methodBody tsBody : Option String)
  | failed (message : FailMessage)
  | untagged (name message : String)
deriving DecidableEq, Repr

/-- Is the result tagged `'ok'`? -/
def ExpandedMethodResult.isOk : ExpandedMethodResult → Bool
  | .ok _ _ _ _ => true
  | _ => false

/-! ## Type registry (part_000 lines 14-54) -/

/-- `SUPPORTED_ARG_TYPES` (part_000 lines 15-24). -/
def SUPPORTED_ARG_TYPES : List String :=
  ["GLenum", "GLfloat", "GLint", "GLuint", "GLsizei", "GLclampf", "GLboolean",
   "const QModelIndex", "int", "const QPoint", "QPoint", "QItemSelectionModel::SelectionFlags",
   "QAbstractItemView::CursorAction", "QAbstractItemView::ScrollHint", "const QString",
   "QHeaderView::ResizeMode", "Qt::SortOrder", "bool", "Qt::Alignment", "Qt::Orientation",
   "uint", "Qt::TextElideMode", "QSizePolicy::Policy", "QWidget", "QComboBox::InsertPolicy",
   "QComboBox::SizeAdjustPolicy", "const QSize", "QIcon::Mode", "QIcon::State", "const QPixmap",
   "QPainter", "Qt::AspectRatioMode", "const QSizeF", "qreal", "QAction", "QMenu", "const QIcon",
   "Qt::Corner"]

/-- `isSupportedArgType` (part_000 lines 27-29). -/
def isSupportedArgType (argName : String) : Bool :=
  SUPPORTED_ARG_TYPES.contains argName

/-- `DEREFERENCE_TYPES` (part_000 lines 32-35): argument types passed as
`*name` in the native call. -/
def DEREFERENCE_TYPES : List String :=
  ["const QModelIndex", "const QPoint", "const QSize", "const QPixmap", "QPainter",
   "const QSizeF", "QPoint", "const QIcon"]

/-- `TS_WRAPPER_TYPES` (part_000 lines 37-39): argument types whose TS
wrapper object is unwrapped with `.native` before the native call. -/
def TS_WRAPPER_TYPES : List String :=
  ["const QModelIndex", "QPainter", "const QPixmap", "QAction", "QMenu", "QPoint",
   "const QIcon", "const QPoint"]

/-- `SUPPORTED_RETURN_TYPES` (part_000 lines 42-49). -/
def SUPPORTED_RETURN_TYPES : List String :=
  ["void", "GLfloat", "GLenum", "GLboolean", "GLint", "GLuint", "GLclampf",
   "GLsizei", "bool", "QModelIndex", "QModelIndexList", "Qt::Alignment", "int",
   "Qt::Orientation", "Qt::SortOrder", "QHeaderView::ResizeMode", "QRect",
   "QString", "QSize", "QComboBox::InsertPolicy", "QComboBox::SizeAdjustPolicy",
   "Qt::ContextMenuPolicy", "QIcon", "Qt::WindowFlags", "QWidget", "QSizeF",
   "qreal", "QAction", "QMenu"]

/-- `isSupportedReturnType` (part_000 lines 52-54). -/
def isSupportedReturnType (returnName : String) : Bool :=
  SUPPORTED_RETURN_TYPES.contains returnName

/-! ## Parsed data model -/

/-- `CppArgument` (part_000 lines 647-650). -/
structure CppArgument where
  type : String
  name : String
deriving DecidableEq, Repr

/-- The record returned by `parseMethodSignature` (part_000 lines 104-108). -/
structure ParsedSignature where
  args : List CppArgument
  methodName : String
  returnType : String
deriving DecidableEq, Repr

/-- The named capture groups of `sigRegex`. -/
structure SigGroups where
  returnType : String
  methodName : String
  args : String
deriving DecidableEq, Repr

/-! ## Regex matchers

The three regexes of part_000 (lines 10-12) are hand-compiled here.  All
quantifiers in them are greedy; the character classes of adjacent
greedy pieces are disjoint (`[\w:]` / `\s`, `[A-Za-z0-9_]` / `(`, `[^)]` /
`)`), so maximal-munch matching is equivalent to the backtracking search,
except for the optional `(virtual\s+)?` group, which is modelled with an
explicit first-try-then-fallback alternative. -/

/-- Match a literal, returning the rest. -/
def stripLit : List Char → List Char → Option (List Char)
  | [], cs => some cs
  | l :: ls, c :: cs => if c = l then stripLit ls cs else none
  | _ :: _, [] => none

/-- Match `\s+` greedily. -/
def stripWS1 : List Char → Option (List Char)
  | c :: rest => if isJsSpace c then some (rest.dropWhile isJsSpace) else none
  | [] => none

/-- `\w` of the ECMAScript pattern grammar: `[A-Za-z0-9_]`. -/
def isWordChar (c : Char) : Bool :=
  c.isAlpha || c.isDigit || c = '_'

/-- Attempt `classNameRegex` at one start position:
`\/\/\s+CLASS:\s+(?<className>\w+)` (part_000 line 10). -/
def matchClassAt (cs : List Char) : Option String :=
  match stripLit ['/', '/'] cs with
  | none => none
  | some cs =>
    match stripWS1 cs with
    | none => none
    | some cs =>
      match stripLit ['C', 'L', 'A', 'S', 'S', ':'] cs with
      | none => none
      | some cs =>
        match stripWS1 cs with
        | none => none
        | some cs =>
          let run := cs.takeWhile isWordChar
          if run.isEmpty then none else some (String.mk run)

/-- Attempt `propNameRegex` at one start position:
`\/\/\s+PROP:\s+(?<className>\w+)` (part_000 line 11). -/
def matchPropAt (cs : List Char) : Option String :=
  match stripLit ['/', '/'] cs with
  | none => none
  | some cs =>
    match stripWS1 cs with
    | none => none
    | some cs =>
      match stripLit ['P', 'R', 'O', 'P', ':'] cs with
      | none => none
      | some cs =>
        match stripWS1 cs with
        | none => none
        | some cs =>
          let run := cs.takeWhile isWordChar
          if run.isEmpty then none else some (String.mk run)

/-- The part of `sigRegex` after the optional `virtual` group:
`(?<returnType>[\w:]+)\s+\&?\*?\s*(?<methodName>[A-Za-z0-9_]+)[(](?<args>[^)]*)\)`. -/
def matchSigTail (cs : List Char) : Option SigGroups :=
  let rt := cs.takeWhile (fun c => isWordChar c || c = ':')
  let cs := cs.dropWhile (fun c => isWordChar c || c = ':')
  if rt.isEmpty then none else
  match stripWS1 cs with
  | none => none
  | some cs =>
    let cs := match cs with | '&' :: r => r | other => other
    let cs := match cs with | '*' :: r => r | other => other
    let cs := cs.dropWhile isJsSpace
    let mn := cs.takeWhile isWordChar
    let cs := cs.dropWhile isWordChar
    if mn.isEmpty then none else
    match stripLit ['('] cs with
    | none => none
    | some cs =>
      let ar := cs.takeWhile (fun c => c != ')')
      let cs := cs.dropWhile (fun c => c != ')')
      match stripLit [')'] cs with
      | none => none
      | some _ => some ⟨String.mk rt, String.mk mn, String.mk ar⟩

/-- Attempt `sigRegex` at one start position (part_000 line 12):
`\/\/\s+TODO:\s+(virtual\s+)?` followed by `matchSigTail`. -/
def matchSigAt (cs : List Char) : Option SigGroups :=
  match stripLit ['/', '/'] cs with
  | none => none
  | some cs =>
    match stripWS1 cs with
    | none => none
    | some cs =>
      match stripLit ['T', 'O', 'D', 'O', ':'] cs with
      | none => none
      | some cs =>
        match stripWS1 cs with
        | none => none
        | some cs =>
          -- greedy optional group `(virtual\s+)?` with backtracking fallback
          match
            (match stripLit ['v', 'i', 'r', 't', 'u', 'a', 'l'] cs with
             | none => none
             | some cs2 =>
               match stripWS1 cs2 with
               | none => none
               | some cs2 => matchSigTail cs2) with
          | some g => some g
          | none => matchSigTail cs

/-- `String.prototype.match` (no global flag) searches start positions left
to right. -/
def searchClass : List Char → Option String
  | [] => none
  | c :: rest =>
    match matchClassAt (c :: rest) with
    | some g => some g
    | none => searchClass rest

/-- Leftmost search for `propNameRegex`. -/
def searchProp : List Char → Option String
  | [] => none
  | c :: rest =>
    match matchPropAt (c :: rest) with
    | some g => some g
    | none => searchProp rest

/-- Leftmost search for `sigRegex`. -/
def searchSig : List Char → Option SigGroups
  | [] => none
  | c :: rest =>
    match matchSigAt (c :: rest) with
    | some g => some g
    | none => searchSig rest

/-- `line.match(classNameRegex)`, reduced to its named capture group. -/
def matchClassName (s : String) : Option String := searchClass s.toList

/-- `line.match(propNameRegex)`, reduced to its named capture group. -/
def matchPropName (s : String) : Option String := searchProp s.toList

/-- `signature.match(sigRegex)`, reduced to its named capture groups. -/
def matchSigRegex (s : String) : Option SigGroups := searchSig s.toList

/-! ## Argument-list parsing (part_000 lines 652-669) -/

/-- `part.trim().split(' ')` of one `parseArgs` iteration
(part_000 line 657). -/
def parseArgTokens (part : String) : List String :=
  (splitChar ' ' (jsTrim part).toList).map String.mk

/-- `argParts.slice(0, argParts.length-1).join(' ')` (part_000 line 658). -/
def parseArgType (part : String) : String :=
  joinSep " " ((parseArgTokens part).take ((parseArgTokens part).length - 1))

/-- `argParts[argParts.length-1]` (part_000 line 659). -/
def parseArgRawName (part : String) : String :=
  (parseArgTokens part).getLastD ""

/-- Strip one leading `&` or `*` from the name (part_000 lines 660-662). -/
def parseArgName (part : String) : String :=
  if listStartsWith (parseArgRawName part).toList ['&'] ||
      listStartsWith (parseArgRawName part).toList ['*'] then
    String.mk ((parseArgRawName part).toList.drop 1)
  else parseArgRawName part

/-- One iteration of the `parseArgs` loop: keep the `(type, name)` pair
only when the name is nonempty (part_000 lines 663-665). -/
def parseArg (part : String) : Option CppArgument :=
  if parseArgName part = "" then none else some ⟨parseArgType part, parseArgName part⟩

/-- `parseArgs` (part_000 lines 652-669). -/
def parseArgs (args : String) : List CppArgument :=
  ((splitChar ',' args.toList).map String.mk).filterMap parseArg

/-! ## Signature parsing (part_000 lines 73-109) -/

/-- `parseMethodSignature` (part_000 lines 73-109).  Throws (models the
`throw result` statements) a `failedResult` on regex mismatch, unknown
return type, or the first unknown argument type. -/
def parseMethodSignature (signature : String) : Except Thrown ParsedSignature :=
  match matchSigRegex signature with
  | none =>
    .error (.failedResult ("Signature didn\x27t match regex for \x27" ++ signature ++ "\x27."))
  | some g =>
    if isSupportedReturnType g.returnType then
      let args := parseArgs g.args
      match args.find? (fun arg => ! isSupportedArgType arg.type) with
      | some arg =>
        .error (.failedResult ("Argument type \x27" ++ arg.type ++
          "\x27 is unknown for signature \x27" ++ signature ++ "\x27."))
      | none => .ok ⟨args, g.methodName, g.returnType⟩
    else
      .error (.failedResult ("Return type \x27" ++ g.returnType ++
        "\x27 is unknown for signature \x27" ++ signature ++ "\x27."))

/-! ## Native (C++) emitter (part_000 lines 148-393) -/

/-- Map a throwing computation over a list, stopping at the first throw —
the shape of every per-argument loop in the generator. -/
def mapME (f : α → Except Thrown β) : List α → Except Thrown (List β)
  | [] => .ok []
  | a :: as =>
    match f a with
    | .error e => .error e
    | .ok b =>
      match mapME f as with
      | .error e => .error e
      | .ok bs => .ok (b :: bs)

/-- The per-argument branch of the native invocation expression
(part_000 lines 301-307): dereference with `*` exactly when the type is in
`DEREFERENCE_TYPES`. -/
def derefArgString (arg : CppArgument) : String :=
  if DEREFERENCE_TYPES.contains arg.type then "*" ++ arg.name else arg.name

/-- The argument-extraction statement of `formatCppMethodBody`'s `switch`
(part_000 lines 156-282), for argument `arg` at position `i`.  The
`default` branch (line 281) throws. -/
def cppArgExtraction (i : Nat) (arg : CppArgument) : Except Thrown String :=
  match arg.type with
  | "GLboolean" | "bool" =>
    .ok ("  " ++ arg.type ++ " " ++ arg.name ++ " = info[" ++ toString i ++
      "].As<Napi::Boolean>().Value();")
  | "GLclampf" | "GLfloat" | "qreal" =>
    .ok ("  " ++ arg.type ++ " " ++ arg.name ++ " = info[" ++ toString i ++
      "].As<Napi::Number>().FloatValue();")
  | "GLenum" | "GLint" | "GLsizei" | "int" =>
    .ok ("  " ++ arg.type ++ " " ++ arg.name ++ " = info[" ++ toString i ++
      "].As<Napi::Number>().Int32Value();")
  | "GLuint" | "uint" =>
    .ok ("  " ++ arg.type ++ " " ++ arg.name ++ " = info[" ++ toString i ++
      "].As<Napi::Number>().Uint32Value();")
  | "const QModelIndex" =>
    .ok ("  QModelIndexWrap* " ++ arg.name ++ "Wrap = Napi::ObjectWrap<QModelIndexWrap>::Unwrap(info[" ++
      toString i ++ "].As<Napi::Object>());\n  QModelIndex* " ++ arg.name ++ " = " ++ arg.name ++
      "Wrap->getInternalInstance();")
  | "const QPoint" =>
    .ok ("  QPointWrap* " ++ arg.name ++ "Wrap = Napi::ObjectWrap<QPointWrap>::Unwrap(info[" ++
      toString i ++ "].As<Napi::Object>());\n  QPoint* " ++ arg.name ++ " = " ++ arg.name ++
      "Wrap->getInternalInstance();")
  | "const QSize" =>
    .ok ("  QSizeWrap* " ++ arg.name ++ "Wrap = Napi::ObjectWrap<QSizeWrap>::Unwrap(info[" ++
      toString i ++ "].As<Napi::Object>());\n  QSize* " ++ arg.name ++ " = " ++ arg.name ++
      "Wrap->getInternalInstance();")
  | "const QSizeF" =>
    .ok ("  QSizeFWrap* " ++ arg.name ++ "Wrap = Napi::ObjectWrap<QSizeFWrap>::Unwrap(info[" ++
      toString i ++ "].As<Napi::Object>());\n  QSizeF* " ++ arg.name ++ " = " ++ arg.name ++
      "Wrap->getInternalInstance();")
  | "QItemSelectionModel::SelectionFlags" =>
    .ok ("  QItemSelectionModel::SelectionFlags " ++ arg.name ++
      " = static_cast<QItemSelectionModel::SelectionFlags>(info[" ++ toString i ++
      "].As<Napi::Number>().Int32Value());")
  | "QAbstractItemView::CursorAction" =>
    .ok ("  QAbstractItemView::CursorAction " ++ arg.name ++
      " = static_cast<QAbstractItemView::CursorAction>(info[" ++ toString i ++
      "].As<Napi::Number>().Int32Value());")
  | "QAbstractItemView::ScrollHint" =>
    .ok ("  QAbstractItemView::ScrollHint " ++ arg.name ++
      " = static_cast<QAbstractItemView::ScrollHint>(info[" ++ toString i ++
      "].As<Napi::Number>().Int32Value());")
  | "const QString" =>
    .ok ("  std::string " ++ arg.name ++ "NapiText = info[" ++ toString i ++
      "].As<Napi::String>().Utf8Value();\n  QString " ++ arg.name ++ " = QString::fromUtf8(" ++
      arg.name ++ "NapiText.c_str());")
  | "QHeaderView::ResizeMode" =>
    .ok ("  QHeaderView::ResizeMode " ++ arg.name ++
      " = static_cast<QHeaderView::ResizeMode>(info[" ++ toString i ++
      "].As<Napi::Number>().Int32Value());")
  | "Qt::SortOrder" =>
    .ok ("  Qt::SortOrder " ++ arg.name ++ " = static_cast<Qt::SortOrder>(info[" ++ toString i ++
      "].As<Napi::Number>().Int32Value());")
  | "QComboBox::InsertPolicy" =>
    .ok ("  QComboBox::InsertPolicy " ++ arg.name ++
      " = static_cast<QComboBox::InsertPolicy>(info[" ++ toString i ++
      "].As<Napi::Number>().Int32Value());")
  | "QComboBox::SizeAdjustPolicy" =>
    .ok ("  QComboBox::SizeAdjustPolicy " ++ arg.name ++
      " = static_cast<QComboBox::SizeAdjustPolicy>(info[" ++ toString i ++
      "].As<Napi::Number>().Int32Value());")
  | "Qt::TextElideMode" =>
    .ok ("  Qt::TextElideMode " ++ arg.name ++ " = static_cast<Qt::TextElideMode>(info[" ++
      toString i ++ "].As<Napi::Number>().Int32Value());")
  | "Qt::Alignment" =>
    .ok ("  Qt::Alignment " ++ arg.name ++ " = static_cast<Qt::Alignment>(info[" ++
      toString i ++ "].As<Napi::Number>().Int32Value());")
  | "Qt::Orientation" =>
    .ok ("  Qt::Orientation " ++ arg.name ++ " = static_cast<Qt::Orientation>(info[" ++
      toString i ++ "].As<Napi::Number>().Int32Value());")
  | "Qt::AspectRatioMode" =>
    .ok ("  Qt::AspectRatioMode " ++ arg.name ++ " = static_cast<Qt::AspectRatioMode>(info[" ++
      toString i ++ "].As<Napi::Number>().Int32Value());")
  | "QSizePolicy::Policy" =>
    .ok ("  QSizePolicy::Policy " ++ arg.name ++ " = static_cast<QSizePolicy::Policy>(info[" ++
      toString i ++ "].As<Napi::Number>().Int32Value());")
  | "QWidget" =>
    .ok ("  Napi::Object " ++ arg.name ++ "WidgetObject = info[" ++ toString i ++
      "].As<Napi::Object>();\n    NodeWidgetWrap* " ++ arg.name ++
      "WidgetWrap =\n        Napi::ObjectWrap<NodeWidgetWrap>::Unwrap(" ++ arg.name ++
      "WidgetObject);\n    QWidget *" ++ arg.name ++ " = " ++ arg.name ++
      "WidgetWrap->getInternalInstance();")
  | "QIcon::Mode" =>
    .ok ("  QIcon::Mode " ++ arg.name ++ " = static_cast<QIcon::Mode>(info[" ++ toString i ++
      "].As<Napi::Number>().Int32Value());")
  | "QIcon::State" =>
    .ok ("  QIcon::State " ++ arg.name ++ " = static_cast<QIcon::State>(info[" ++ toString i ++
      "].As<Napi::Number>().Int32Value());")
  | "const QPixmap" =>
    .ok ("  QPixmapWrap* " ++ arg.name ++ "Wrap = Napi::ObjectWrap<QPixmapWrap>::Unwrap(info[" ++
      toString i ++ "].As<Napi::Object>());\n    QPixmap* " ++ arg.name ++ " = " ++ arg.name ++
      "Wrap->getInternalInstance();")
  | "QPainter" =>
    .ok ("  QPainterWrap* " ++ arg.name ++ "Wrap = Napi::ObjectWrap<QPainterWrap>::Unwrap(info[" ++
      toString i ++ "].As<Napi::Object>());\n    QPainter* " ++ arg.name ++ " = " ++ arg.name ++
      "Wrap->getInternalInstance();")
  | "QAction" =>
    .ok ("  QActionWrap* " ++ arg.name ++ "Wrap = Napi::ObjectWrap<QActionWrap>::Unwrap(info[" ++
      toString i ++ "].As<Napi::Object>());\n    QAction* " ++ arg.name ++ " = " ++ arg.name ++
      "Wrap->getInternalInstance();")
  | "QMenu" =>
    .ok ("  QMenuWrap* " ++ arg.name ++ "Wrap = Napi::ObjectWrap<QMenuWrap>::Unwrap(info[" ++
      toString i ++ "].As<Napi::Object>());\n    QMenu* " ++ arg.name ++ " = " ++ arg.name ++
      "Wrap->getInternalInstance();")
  | "const QIcon" =>
    .ok ("  QIconWrap* " ++ arg.name ++ "Wrap = Napi::ObjectWrap<QIconWrap>::Unwrap(info[" ++
      toString i ++ "].As<Napi::Object>());\n    QIcon* " ++ arg.name ++ " = " ++ arg.name ++
      "Wrap->getInternalInstance();")
  | "Qt::Corner" =>
    .ok ("  Qt::Corner " ++ arg.name ++ " = static_cast<Qt::Corner>(info[" ++ toString i ++
      "].As<Napi::Number>().Int32Value());")
  | _ =>
    .error (.jsError "Error" ("formatCppMethodBody(): Unexpected arg type \x27" ++ arg.type ++
      "\x27 while processing C++ body."))

/-- One loop iteration of the extraction loop appends a newline after the
statement (part_000 lines 283-284). -/
def cppArgExtractionNL (p : Nat × CppArgument) : Except Thrown String :=
  match cppArgExtraction p.1 p.2 with
  | .error e => .error e
  | .ok s => .ok (s ++ "\n")

/-- The `result` declaration prefix before the native call
(part_000 lines 287-298). -/
def cppResultDecl (returnType : String) : String :=
  match returnType with
  | "void" => "  "
  | "QAction" | "QMenu" => "  " ++ returnType ++ "* result = "
  | _ => "  " ++ returnType ++ " result = "

/-- The result-packing statement per return type (part_000 lines 311-387).
The `default` branch (line 386) throws. -/
def cppResultPacking (returnType : String) : Except Thrown String :=
  match returnType with
  | "void" => .ok "  return env.Null();"
  | "int" | "GLclampf" | "GLfloat" | "GLenum" | "GLint" | "GLuint" | "GLsizei" | "qreal" =>
    .ok "  return Napi::Number::New(env, result);"
  | "Qt::Alignment" | "Qt::Orientation" | "QHeaderView::ResizeMode" | "Qt::SortOrder"
  | "QComboBox::InsertPolicy" | "QComboBox::SizeAdjustPolicy" =>
    .ok "  return Napi::Number::New(env, static_cast<uint>(result));"
  | "GLboolean" | "bool" => .ok "  return Napi::Boolean::New(env, result);"
  | "QModelIndex" =>
    .ok ("  auto resultInstance = QModelIndexWrap::constructor.New(\n    " ++
      "\x7bNapi::External<QModelIndex>::New(env, new QModelIndex(result))\x7d);\n" ++
      "  return resultInstance;")
  | "QModelIndexList" =>
    .ok ("  Napi::Array resultArrayNapi = Napi::Array::New(env, result.size());\n" ++
      "  for (int i = 0; i < result.size(); i++) \x7b\n" ++
      "    resultArrayNapi[i] = QModelIndexWrap::constructor.New(\x7bNapi::External<QModelIndex>" ++
      "::New(env, new QModelIndex(result[i]))\x7d);\n  \x7d\n  return resultArrayNapi;")
  | "QRect" =>
    .ok ("  auto resultInstance = QRectWrap::constructor.New(\n      " ++
      "\x7bNapi::External<QRect>::New(env, new QRect(result))\x7d);\n    return resultInstance;")
  | "QSize" =>
    .ok ("  auto resultInstance = QSizeWrap::constructor.New(\n      " ++
      "\x7bNapi::External<QSize>::New(env, new QSize(result))\x7d);\n    return resultInstance;")
  | "QSizeF" =>
    .ok ("  auto resultInstance = QSizeFWrap::constructor.New(\n      " ++
      "\x7bNapi::External<QSizeF>::New(env, new QSizeF(result))\x7d);\n    return resultInstance;")
  | "QString" => .ok "  return Napi::String::New(env, result.toStdString());\n"
  | "QWidget" | "QAction" | "QMenu" =>
    .ok ("  if (result) \x7b\n        return WrapperCache::instance.getWrapper(env, result);\n" ++
      "      \x7d else \x7b\n        return env.Null();\n      \x7d")
  | "QIcon" =>
    .ok ("  auto resultInstance = QIconWrap::constructor.New(\n      " ++
      "\x7bNapi::External<QIcon>::New(env, new QIcon(result))\x7d);\n    return resultInstance;")
  | _ =>
    .error (.jsError "Error" ("Unexpected return type " ++ returnType ++
      " while processing C++ body."))

/-- The fixed opening of the native method body (part_000 lines 149-152). -/
def cppBodyHeader (className methodName : String) : String :=
  "\nNapi::Value " ++ className ++ "Wrap::" ++ methodName ++
  "(const Napi::CallbackInfo& info) \x7b\n  Napi::Env env = info.Env();\n"

/-- `formatCppMethodBody` (part_000 lines 148-393): header, per-argument
extraction statements (throwing on an unhandled type), `result`
declaration, the native invocation with `*`-dereferenced arguments, the
result packing (throwing on an unhandled return type), and the closing
brace. -/
def formatCppMethodBody (className methodName : String) (args : List CppArgument)
    (returnType : String) : Except Thrown String :=
  match mapME cppArgExtractionNL args.enum with
  | .error e => .error e
  | .ok exts =>
    match cppResultPacking returnType with
    | .error e => .error e
    | .ok pack =>
      .ok (cppBodyHeader className methodName ++ strJoin exts ++ cppResultDecl returnType ++
        "this->instance->" ++ methodName ++ "(" ++ joinSep ", " (args.map derefArgString) ++
        ");\n" ++ pack ++ "\n\x7d\n")

/-! ## TypeScript emitter (part_000 lines 395-644, 671-678) -/

/-- `formatTSMethodName` (part_000 lines 671-678): strip a legacy `gl`
prefix and lower-case the next character, otherwise keep the name. -/
def formatTSMethodName (methodName : String) : String :=
  if listStartsWith methodName.toList ['g', 'l'] then
    let body := methodName.toList.drop 2
    String.mk ((body.take 1).map Char.toLower) ++ String.mk (body.drop 1)
  else methodName

/-- `mapCppToTSArgumentType` (part_000 lines 516-586).  The `default`
branch (line 584) throws (the typo `specificed` is the source's). -/
def mapCppToTSArgumentType (argType argName : String) : Except Thrown String :=
  match argType with
  | "GLboolean" | "bool" => .ok "boolean"
  | "GLclampf" | "GLenum" | "GLfloat" | "GLint" | "GLuint" | "GLsizei"
  | "int" | "uint" | "qreal" => .ok "number"
  | "const QModelIndex" => .ok "QModelIndex"
  | "const QPoint" => .ok "QPoint"
  | "const QSize" => .ok "QSize"
  | "const QSizeF" => .ok "QSizeF"
  | "QItemSelectionModel::SelectionFlags" => .ok "SelectionFlag"
  | "QAbstractItemView::CursorAction" => .ok "CursorAction"
  | "QAbstractItemView::ScrollHint" => .ok "ScrollHint"
  | "QHeaderView::ResizeMode" => .ok "QHeaderViewResizeMode"
  | "Qt::SortOrder" => .ok "SortOrder"
  | "QComboBox::InsertPolicy" => .ok "InsertPolicy"
  | "QComboBox::SizeAdjustPolicy" => .ok "SizeAdjustPolicy"
  | "Qt::TextElideMode" => .ok "TextElideMode"
  | "Qt::Alignment" => .ok "AlignmentFlag"
  | "Qt::Orientation" => .ok "Orientation"
  | "Qt::AspectRatioMode" => .ok "AspectRatioMode"
  | "const QString" => .ok "string"
  | "QSizePolicy::Policy" => .ok "QSizePolicyPolicy"
  | "QWidget" => .ok "QWidget"
  | "QIcon::Mode" => .ok "QIconMode"
  | "QIcon::State" => .ok "QIconState"
  | "const QPixmap" => .ok "QPixmap"
  | "QPainter" => .ok "QPainter"
  | "QAction" => .ok "QAction"
  | "QMenu" => .ok "QMenu"
  | "const QIcon" => .ok "QIcon"
  | "Qt::Corner" => .ok "Corner"
  | _ =>
    .error (.jsError "Error" ("mapCppToTSArgumentType(): Unexpected argument type \x27" ++
      argType ++ "\x27 specificed for argument \x27" ++ argName ++
      "\x27 while processing TypeScript."))

/-- `mapCppToTsReturnType` (part_000 lines 461-514).  The `default` branch
(line 512) throws. -/
def mapCppToTsReturnType (returnType : String) : Except Thrown String :=
  match returnType with
  | "void" => .ok "void"
  | "GLboolean" | "bool" => .ok "boolean"
  | "int" | "GLenum" | "GLfloat" | "GLint" | "GLuint" | "GLsizei" | "qreal" => .ok "number"
  | "QModelIndex" => .ok "QModelIndex"
  | "QModelIndexList" => .ok "QModelIndex[]"
  | "QRect" => .ok "QRect"
  | "Qt::Alignment" => .ok "AlignmentFlag"
  | "Qt::Orientation" => .ok "Orientation"
  | "QHeaderView::ResizeMode" => .ok "QHeaderViewResizeMode"
  | "Qt::SortOrder" => .ok "SortOrder"
  | "QComboBox::InsertPolicy" => .ok "InsertPolicy"
  | "QComboBox::SizeAdjustPolicy" => .ok "SizeAdjustPolicy"
  | "Qt::TextElideMode" => .ok "TextElideMode"
  | "QSize" => .ok "QSize"
  | "QSizeF" => .ok "QSizeF"
  | "Qt::ContextMenuPolicy" => .ok "ContextMenuPolicy"
  | "Qt::WindowFlags" => .ok "WindowFlags"
  | "QString" => .ok "string"
  | "QIcon" => .ok "QIcon"
  | "QWidget" => .ok "QWidget"
  | "QAction" => .ok "QAction"
  | "QMenu" => .ok "QMenu"
  | _ =>
    .error (.jsError "Error" ("Unexpected return type " ++ returnType ++
      " while processing TypeScript."))

/-- One parameter of the TS signature, `name: mappedType`
(part_000 lines 397 and 590). -/
def tsParamString (arg : CppArgument) : Except Thrown String :=
  match mapCppToTSArgumentType arg.type arg.name with
  | .error e => .error e
  | .ok t => .ok (arg.name ++ ": " ++ t)

/-- The per-argument branch of the TS native call (part_000 lines 403-409):
unwrap with `.native` exactly when the type is in `TS_WRAPPER_TYPES`. -/
def tsWrapperArgString (arg : CppArgument) : String :=
  if TS_WRAPPER_TYPES.contains arg.type then arg.name ++ ".native" else arg.name

/-- The return-type-directed body of the TS method
(part_000 lines 412-454). -/
def tsReturnClause (returnType methodCall : String) : String :=
  match returnType with
  | "void" => methodCall ++ ";\n"
  | "QModelIndex" => "        return new QModelIndex(" ++ methodCall ++ ");\n"
  | "QModelIndexList" =>
    "        const methodResult = " ++ methodCall ++
    ";\n        return methodResult.map((item: any) => new QModelIndex(item));\n"
  | "QRect" => "        return new QRect(" ++ methodCall ++ ");\n"
  | "QSize" => "        return new QSize(" ++ methodCall ++ ");\n"
  | "QSizeF" => "        return new QSizeF(" ++ methodCall ++ ");\n"
  | "QWidget" => "        return wrapperCache.getWrapper(" ++ methodCall ++ ") as QWidget;\n"
  | "QAction" => "        return wrapperCache.getWrapper(" ++ methodCall ++ ") as QAction;\n"
  | "QMenu" => "        return wrapperCache.getWrapper(" ++ methodCall ++ ") as QMenu;\n"
  | _ => "        return " ++ methodCall ++ ";\n"

/-- `formatTSMethod` (part_000 lines 395-458). -/
def formatTSMethod (methodName : String) (args : List CppArgument)
    (returnType : String) : Except Thrown String :=
  match mapME tsParamString args with
  | .error e => .error e
  | .ok params =>
    match mapCppToTsReturnType returnType with
    | .error e => .error e
    | .ok ret =>
      let methodCall := "this.native." ++ methodName ++ "(" ++
        joinSep ", " (args.map tsWrapperArgString) ++ ")"
      .ok ("    " ++ formatTSMethodName methodName ++ "(" ++ joinSep ", " params ++ "): " ++
        ret ++ " \x7b\n" ++ tsReturnClause returnType methodCall ++ "    \x7d\n")

/-- The property key of a void-returning (setter-shaped) property method:
`methodName[3].toLowerCase() + methodName.slice(4)` (part_000 line 596).
When the name has fewer than four characters, `methodName[3]` is
`undefined` and the `.toLowerCase()` call throws a `TypeError`. -/
def jsSetterPropertyKey (methodName : String) : Except Thrown String :=
  match methodName.toList.drop 3 with
  | [] =>
    .error (.jsError "TypeError"
      "Cannot read properties of undefined (reading \x27toLowerCase\x27)")
  | c :: _ => .ok (String.mk [c.toLower] ++ String.mk (methodName.toList.drop 4))

/-- The return-type-directed body of the TS property accessor
(part_000 lines 594-640). -/
def tsPropertyClause (methodName : String) (args : List CppArgument)
    (returnType : String) : Except Thrown String :=
  match returnType with
  | "void" =>
    match jsSetterPropertyKey methodName with
    | .error e => .error e
    | .ok key =>
      .ok ("this.setProperty(\x27" ++ key ++ "\x27, " ++
        joinSep ", " (args.map CppArgument.name) ++ ");\n")
  | "bool" => .ok ("        return this.property(\x27" ++ methodName ++ "\x27).toBool();\n")
  | "QString" => .ok ("        return this.property(\x27" ++ methodName ++ "\x27).toString();\n")
  | "Qt::WindowFlags" | "Qt::ContextMenuPolicy" | "int" | "uint" =>
    .ok ("        return this.property(\x27" ++ methodName ++ "\x27).toInt();\n")
  | "QRect" =>
    .ok ("        return QRect.fromQVariant(this.property(\x27" ++ methodName ++ "\x27));\n")
  | "QSize" =>
    .ok ("        return QSize.fromQVariant(this.property(\x27" ++ methodName ++ "\x27));\n")
  | "QSizeF" =>
    .ok ("        return QSizeF.fromQVariant(this.property(\x27" ++ methodName ++ "\x27));\n  ")
  | "QIcon" =>
    .ok ("        return QIcon.fromQVariant(this.property(\x27" ++ methodName ++ "\x27));\n")
  | _ => .ok ("        return this.property(\x27" ++ methodName ++ "\x27);\n")

/-- `formatTSProperty` (part_000 lines 588-644).  The signature line
(parameter types and return type) is evaluated before the body clause,
so a registry throw precedes the short-name `TypeError`. -/
def formatTSProperty (methodName : String) (args : List CppArgument)
    (returnType : String) : Except Thrown String :=
  match mapME tsParamString args with
  | .error e => .error e
  | .ok params =>
    match mapCppToTsReturnType returnType with
    | .error e => .error e
    | .ok ret =>
      match tsPropertyClause methodName args returnType with
      | .error e => .error e
      | .ok clause =>
        .ok ("    " ++ formatTSMethodName methodName ++ "(" ++ joinSep ", " params ++ "): " ++
          ret ++ " \x7b\n" ++ clause ++ "    \x7d\n")

/-! ## Expansion (part_000 lines 111-146) -/

/-- `expandMethod` (part_000 lines 111-127): the whole emission runs inside
`try`; any thrown value is caught and wrapped as
`{ type: 'failed', message: <the caught value> }` — note the `message`
field holds the caught value itself, not its message string. -/
def expandMethod (className signature : String) : ExpandedMethodResult :=
  match parseMethodSignature signature with
  | .error t => .failed (.objMsg t)
  | .ok ps =>
    match formatCppMethodBody className ps.methodName ps.args ps.returnType with
    | .error t => .failed (.objMsg t)
    | .ok methodBody =>
      match formatTSMethod ps.methodName ps.args ps.returnType with
      | .error t => .failed (.objMsg t)
      | .ok tsBody =>
        .ok (some ("  Napi::Value " ++ ps.methodName ++ "(const Napi::CallbackInfo& info);\n"))
          (some ("       InstanceMethod(\"" ++ ps.methodName ++ "\", &" ++ className ++
            "Wrap::" ++ ps.methodName ++ "),\n"))
          (some methodBody) (some tsBody)

/-- `expandProperty` (part_000 lines 129-146): the `catch` returns the
caught value *unchanged*.  A thrown `failedResult` therefore still carries
the tag `'failed'` (with a string message), while a thrown `Error` carries
no `type` tag at all. -/
def expandProperty (signature : String) : ExpandedMethodResult :=
  match parseMethodSignature signature with
  | .error (.failedResult m) => .failed (.strMsg m)
  | .error (.jsError n m) => .untagged n m
  | .ok ps =>
    match formatTSProperty ps.methodName ps.args ps.returnType with
    | .error (.failedResult m) => .failed (.strMsg m)
    | .error (.jsError n m) => .untagged n m
    | .ok tsBody => .ok none none none (some tsBody)

/-! ## Batch driver (part_000 lines 681-774) -/

/-- The four fragment collections of `process`
(part_000 lines 707-710). -/
structure Fragments where
  cppDeclaration : List String
  napiInitBlock : List String
  bodyBlock : List String
  tsBlock : List String
deriving DecidableEq, Repr

/-- The initial, empty fragment collections. -/
def emptyFragments : Fragments := ⟨[], [], [], []⟩

/-- `array.push(x)` guarded by the `!= null` checks of the `'ok'` case
(part_000 lines 727-740). -/
def pushFragment (xs : List String) : Option String → List String
  | some s => xs ++ [s]
  | none => xs

/-- Push the four optional fragments of an `'ok'` result. -/
def pushFragments (acc : Fragments) (d n b t : Option String) : Fragments :=
  ⟨pushFragment acc.cppDeclaration d, pushFragment acc.napiInitBlock n,
   pushFragment acc.bodyBlock b, pushFragment acc.tsBlock t⟩

/-- The body loop of `process` (part_000 lines 711-747): skip blank lines,
expand each remaining line, accumulate fragments on `'ok'`, return the
single error line on `'failed'`, and — because the `switch` has no case
for any other tag — silently skip a result that is neither `'ok'` nor
`'failed'`. -/
def bodyLoop (isProp : Bool) (className : String) :
    List String → Fragments → Fragments ⊕ String
  | [], acc => .inl acc
  | line :: rest, acc =>
    let trimLine := jsTrim line
    if trimLine = "" then bodyLoop isProp className rest acc
    else
      match (if isProp then expandProperty trimLine else expandMethod className trimLine) with
      | .ok d n b t => bodyLoop isProp className rest (pushFragments acc d n b t)
      | .failed m => .inr (">>> ERROR: " ++ m.render)
      | .untagged _ _ => bodyLoop isProp className rest acc

/-- The section separator line (part_000 lines 751 etc.). -/
def sectionSeparator : String := "//----------------------------------------------------"

/-- The emission stage of `process` (part_000 lines 748-774): the class
echo line, then the three native sections each only when non-empty, then
the TS section unconditionally. -/
def emitOutput (className : String) (f : Fragments) : List String :=
  ["// CLASS: " ++ className]
  ++ (if f.cppDeclaration.length != 0 then
        [sectionSeparator, "// C++ declaration", strJoin f.cppDeclaration, ""] else [])
  ++ (if f.napiInitBlock.length != 0 then
        [sectionSeparator, "// Napi declaration", strJoin f.napiInitBlock, ""] else [])
  ++ (if f.bodyBlock.length != 0 then
        [sectionSeparator, "// C++ body", strJoin f.bodyBlock, ""] else [])
  ++ [sectionSeparator, "// TS body", strJoin f.tsBlock]

/-- Run the body loop and emit (part_000 lines 711-774): on `'failed'` the
only output line is the error line. -/
def runBatch (isProp : Bool) (className : String) (bodyLines : List String) : List String :=
  match bodyLoop isProp className bodyLines emptyFragments with
  | .inl frags => emitOutput className frags
  | .inr err => [err]

/-- The blank-skipping loop of `process` (part_000 line 686):
`while (lines[lineNumber].trim() === '' && lineNumber < lines.length)`.
The condition indexes the array *before* the bounds test, so when every
line is blank the loop evaluates `undefined.trim()` and the program dies
with an uncaught `TypeError`; the `No non-blank lines were found` report
on lines 689-692 is unreachable. -/
def skipBlank : List String → Except Thrown (String × List String)
  | [] =>
    .error (.jsError "TypeError" "Cannot read properties of undefined (reading \x27trim\x27)")
  | l :: rest => if jsTrim l = "" then skipBlank rest else .ok (l, rest)

/-- The header stage of `process` (part_000 lines 682-705): find the first
non-blank line, try `classNameRegex` then `propNameRegex` on it; `none`
means neither matched. -/
def headerPhase (input : String) : Except Thrown (Option (Bool × String × List String)) :=
  match skipBlank (jsSplitLines input) with
  | .error t => .error t
  | .ok (l, rest) =>
    match matchClassName l with
    | some className => .ok (some (false, className, rest))
    | none =>
      match matchPropName l with
      | some className => .ok (some (true, className, rest))
      | none => .ok none

/-- `process` (part_000 lines 681-774) as a function from the raw input
string to the list of `log`-emitted lines (or an uncaught throw). -/
def process (input : String) : Except Thrown (List String) :=
  match headerPhase input with
  | .error t => .error t
  | .ok none => .ok ["ERROR: Unable to find CLASS or PROP comment. i.e. // CLASS: FooBarWidget"]
  | .ok (some (isProp, className, rest)) => .ok (runBatch isProp className rest)

/-! ## Helper lemmas -/

/-- `mapME` preserves the list length on success. -/
theorem mapME_ok_length {f : α → Except Thrown β} :
    ∀ {xs : List α} {ys : List β}, mapME f xs = .ok ys → ys.length = xs.length := by
  intro xs
  induction xs with
  | nil => intro ys h; simp only [mapME] at h; cases h; rfl
  | cons a as ih =>
    intro ys h
    simp only [mapME] at h
    cases hf : f a with
    | error e => rw [hf] at h; cases h
    | ok b =>
      rw [hf] at h
      cases hm : mapME f as with
      | error e => rw [hm] at h; cases h
      | ok bs => rw [hm] at h; cases h; simp [ih hm]

/-- A kept `parseArg` result always has a nonempty name (the `name != ""`
guard of the push). -/
theorem parseArg_name_nonempty (part : String) (arg : CppArgument)
    (h : parseArg part = some arg) : arg.name ≠ "" := by
  unfold parseArg at h
  by_cases hc : parseArgName part = ""
  · rw [if_pos hc] at h; cases h
  · rw [if_neg hc] at h; cases h; exact hc

/-- Every argument produced by `parseArgs` has a nonempty name. -/
theorem parseArgs_name_nonempty (s : String) (arg : CppArgument)
    (h : arg ∈ parseArgs s) : arg.name ≠ "" := by
  simp only [parseArgs] at h
  obtain ⟨part, _, hp⟩ := List.mem_filterMap.mp h
  exact parseArg_name_nonempty part arg hp

/-- A successful `parseMethodSignature` takes its argument list verbatim
from `parseArgs` applied to the regex capture. -/
theorem parseMethodSignature_args (sig : String) (ps : ParsedSignature)
    (h : parseMethodSignature sig = .ok ps) :
    ∃ g, matchSigRegex sig = some g ∧ ps.args = parseArgs g.args := by
  cases hm : matchSigRegex sig with
  | none =>
    simp only [parseMethodSignature, hm] at h
    exact Except.noConfusion h
  | some g =>
    simp only [parseMethodSignature, hm] at h
    by_cases hr : isSupportedReturnType g.returnType = true
    · rw [if_pos hr] at h
      cases hf : (parseArgs g.args).find? (fun arg => ! isSupportedArgType arg.type) with
      | some arg =>
        simp only [hf] at h
        exact Except.noConfusion h
      | none => simp only [hf] at h; cases h; exact ⟨g, rfl, rfl⟩
    · rw [if_neg hr] at h; cases h

/-- Concatenating two strings of characters concatenates the characters. -/
theorem strMk_append (xs ys : List Char) :
    String.mk xs ++ String.mk ys = String.mk (xs ++ ys) := rfl

/-- In operation mode, a prefix of lines that are each blank or expand to
an `'ok'` result is consumed by the body loop without stopping; only the
accumulator changes. -/
theorem bodyLoop_ok_prefix (cn : String) (pre : List String) :
    ∀ (rest : List String) (acc : Fragments),
    (∀ l ∈ pre, jsTrim l = "" ∨ (expandMethod cn (jsTrim l)).isOk = true) →
    ∃ acc2, bodyLoop false cn (pre ++ rest) acc = bodyLoop false cn rest acc2 := by
  induction pre with
  | nil => intro rest acc _; exact ⟨acc, rfl⟩
  | cons l ls ih =>
    intro rest acc h
    by_cases hblank : jsTrim l = ""
    · obtain ⟨acc2, hacc⟩ := ih rest acc (fun x hx => h x (List.mem_cons_of_mem _ hx))
      refine ⟨acc2, ?_⟩
      rw [List.cons_append]
      simp only [bodyLoop, if_pos hblank]
      exact hacc
    · have hok : (expandMethod cn (jsTrim l)).isOk = true :=
        (h l (List.mem_cons_self l ls)).resolve_left hblank
      cases hm : expandMethod cn (jsTrim l) with
      | ok d n b t =>
        obtain ⟨acc2, hacc⟩ :=
          ih rest (pushFragments acc d n b t) (fun x hx => h x (List.mem_cons_of_mem _ hx))
        refine ⟨acc2, ?_⟩
        rw [List.cons_append]
        simp only [bodyLoop, if_neg hblank, Bool.false_eq_true, if_false, hm]
        exact hacc
      | failed m => rw [hm] at hok; cases hok
      | untagged a b2 => rw [hm] at hok; cases hok

/-- An `'ok'` result of `expandProperty` always carries `null` for the
three native fragments (part_000 lines 134-140). -/
theorem expandProperty_ok_shape (sig : String) (d n b t : Option String)
    (h : expandProperty sig = .ok d n b t) : d = none ∧ n = none ∧ b = none := by
  cases hp : parseMethodSignature sig with
  | error e =>
    cases e <;> simp only [expandProperty, hp] at h <;> exact ExpandedMethodResult.noConfusion h
  | ok ps =>
    cases hf : formatTSProperty ps.methodName ps.args ps.returnType with
    | error e =>
      cases e <;> simp only [expandProperty, hp, hf] at h <;>
        exact ExpandedMethodResult.noConfusion h
    | ok ts =>
      simp only [expandProperty, hp, hf] at h
      cases h
      exact ⟨rfl, rfl, rfl⟩

/-- In property mode the body loop never touches the declaration,
registration, or native-body collections. -/
theorem bodyLoop_prop_natives (cn : String) (lines : List String) :
    ∀ (acc frags : Fragments), bodyLoop true cn lines acc = .inl frags →
    frags.cppDeclaration = acc.cppDeclaration ∧ frags.napiInitBlock = acc.napiInitBlock ∧
    frags.bodyBlock = acc.bodyBlock := by
  induction lines with
  | nil =>
    intro acc frags h
    simp only [bodyLoop] at h
    cases h
    exact ⟨rfl, rfl, rfl⟩
  | cons l ls ih =>
    intro acc frags h
    by_cases hblank : jsTrim l = ""
    · rw [show bodyLoop true cn (l :: ls) acc = bodyLoop true cn ls acc by
        simp only [bodyLoop, if_pos hblank]] at h
      exact ih acc frags h
    · cases hm : expandProperty (jsTrim l) with
      | ok d n b t =>
        obtain ⟨hd, hn, hb⟩ := expandProperty_ok_shape _ _ _ _ _ hm
        subst hd; subst hn; subst hb
        rw [show bodyLoop true cn (l :: ls) acc =
            bodyLoop true cn ls (pushFragments acc none none none t) by
          simp only [bodyLoop, if_neg hblank, if_true, hm]] at h
        have := ih (pushFragments acc none none none t) frags h
        simpa [pushFragments, pushFragment] using this
      | failed m =>
        rw [show bodyLoop true cn (l :: ls) acc = .inr (">>> ERROR: " ++ m.render) by
          simp only [bodyLoop, if_neg hblank, if_true, hm]] at h
        exact Sum.noConfusion h
      | untagged a b2 =>
        rw [show bodyLoop true cn (l :: ls) acc = bodyLoop true cn ls acc by
          simp only [bodyLoop, if_neg hblank, if_true, hm]] at h
        exact ih acc frags h

/-! ## Claim theorems -/

/-- C2: on the spec scenario `// TODO: Frobnicator zap()` in operation
mode the program does abort with a single diagnostic line, but that line
is `>>> ERROR: [object Object]`: `parseMethodSignature` throws a failure
whose message names `Frobnicator` and the raw line, yet `expandMethod`
stores the caught object itself — not its message string — in the
`message` field, so the interpolated diagnostic names neither. -/
theorem unsupported_type_diagnostic_object :
    process "// CLASS: Foo\n// TODO: Frobnicator zap()\n" = .ok [">>> ERROR: [object Object]"] ∧
    parseMethodSignature "// TODO: Frobnicator zap()" =
      .error (.failedResult
        "Return type \x27Frobnicator\x27 is unknown for signature \x27// TODO: Frobnicator zap()\x27.") ∧
    expandMethod "Foo" "// TODO: Frobnicator zap()" =
      .failed (.objMsg (.failedResult
        "Return type \x27Frobnicator\x27 is unknown for signature \x27// TODO: Frobnicator zap()\x27.")) :=
  ⟨rfl, rfl, rfl⟩

/-- C7: on entirely blank input (including empty input) the blank-skipping
loop indexes past the end of the line array before its bounds test and the
program dies with an uncaught `TypeError`; the `No non-blank lines were
found` diagnostic is never printed. -/
theorem blank_input_crashes :
    process "" =
      .error (.jsError "TypeError" "Cannot read properties of undefined (reading \x27trim\x27)") ∧
    process "\n  \n" =
      .error (.jsError "TypeError" "Cannot read properties of undefined (reading \x27trim\x27)") :=
  ⟨rfl, rfl⟩

/-- C9: `QPoint` is in `SUPPORTED_ARG_TYPES`, yet both the native-body
extraction switch and the TS argument-type mapping fall through to their
throwing `default` branches on it, so a signature whose arguments all
satisfy `isSupportedArgType` still reaches the `Unexpected arg type`
throw end to end. -/
theorem qpoint_supported_but_unhandled :
    isSupportedArgType "QPoint" = true ∧
    cppArgExtraction 0 ⟨"QPoint", "p"⟩ =
      .error (.jsError "Error"
        "formatCppMethodBody(): Unexpected arg type \x27QPoint\x27 while processing C++ body.") ∧
    mapCppToTSArgumentType "QPoint" "p" =
      .error (.jsError "Error"
        ("mapCppToTSArgumentType(): Unexpected argument type \x27QPoint\x27 specificed " ++
         "for argument \x27p\x27 while processing TypeScript.")) ∧
    expandMethod "Foo" "// TODO: void setPos(QPoint p)" =
      .failed (.objMsg (.jsError "Error"
        "formatCppMethodBody(): Unexpected arg type \x27QPoint\x27 while processing C++ body.")) :=
  ⟨rfl, rfl, rfl, rfl⟩

/-- C6 counterexample: a batch with a header and no body lines completes
without failure with an empty typed-API fragment collection, yet the
`// TS body` section is still emitted — the typed-API section is
unconditional, refuting "emitted only if its fragment collection is
non-empty". -/
theorem ts_section_emitted_when_empty :
    bodyLoop false "Foo" [""] emptyFragments = .inl emptyFragments ∧
    emptyFragments.tsBlock = [] ∧
    process "// CLASS: Foo\n" = .ok ["// CLASS: Foo", sectionSeparator, "// TS body", ""] :=
  ⟨rfl, rfl, rfl⟩

/-- C8 counterexample: the parser happily accepts a signature whose two
arguments carry the same name, so parsed argument names are not
pairwise distinct. -/
theorem duplicate_arg_names_parse :
    parseMethodSignature "// TODO: void foo(int a, int a)" =
      .ok ⟨[⟨"int", "a"⟩, ⟨"int", "a"⟩], "foo", "void"⟩ ∧
    ¬ List.Pairwise (fun a b : CppArgument => a.name ≠ b.name)
        [(⟨"int", "a"⟩ : CppArgument), ⟨"int", "a"⟩] :=
  ⟨rfl, by simp [List.pairwise_cons]⟩

/-- C8 (amended): the parser never checks distinctness and duplicate
argument names survive a successful parse; the guarantee it does give is
that every argument in the parsed list has a nonempty name (empty-named
arguments are dropped by `parseArgs`). -/
theorem parsed_arg_names_nonempty (sig : String) (ps : ParsedSignature)
    (h : parseMethodSignature sig = .ok ps) : ∀ arg ∈ ps.args, arg.name ≠ "" := by
  obtain ⟨g, _, hargs⟩ := parseMethodSignature_args sig ps h
  intro arg hmem
  exact parseArgs_name_nonempty g.args arg (hargs ▸ hmem)

/-- Witness for C8 (amended) at the duplicate-name input. -/
theorem parsed_arg_names_nonempty_witness :
    parseMethodSignature "// TODO: void foo(int a, int a)" =
      .ok ⟨[⟨"int", "a"⟩, ⟨"int", "a"⟩], "foo", "void"⟩ ∧ ("a" : String) ≠ "" :=
  ⟨rfl, parsed_arg_names_nonempty "// TODO: void foo(int a, int a)"
    ⟨[⟨"int", "a"⟩, ⟨"int", "a"⟩], "foo", "void"⟩ rfl ⟨"int", "a"⟩
    (List.mem_cons_self _ _)⟩

/-- C10: in property mode, when the typed-accessor emission throws a value
that is not a tagged failure result, `expandProperty` returns that raw
value; its tag matches neither `'ok'` nor `'failed'`, so the batch driver
neither aborts nor pushes any fragment for that line and continues with
the remaining lines unchanged. -/
theorem untagged_throw_skipped (line className : String) (rest : List String)
    (acc : Fragments) (ps : ParsedSignature) (n m : String)
    (hne : jsTrim line ≠ "")
    (hparse : parseMethodSignature (jsTrim line) = .ok ps)
    (hts : formatTSProperty ps.methodName ps.args ps.returnType = .error (.jsError n m)) :
    expandProperty (jsTrim line) = .untagged n m ∧
    bodyLoop true className (line :: rest) acc = bodyLoop true className rest acc := by
  have hexp : expandProperty (jsTrim line) = .untagged n m := by
    simp only [expandProperty, hparse, hts]
  exact ⟨hexp, by simp only [bodyLoop, if_neg hne, if_true, hexp]⟩

/-- Witness for C10: `// TODO: void se(int x)` parses, but the setter key
derivation of the 2-character method name throws a `TypeError`, which is
skipped silently. -/
theorem untagged_throw_skipped_witness :
    jsTrim "// TODO: void se(int x)" ≠ "" ∧
    parseMethodSignature "// TODO: void se(int x)" = .ok ⟨[⟨"int", "x"⟩], "se", "void"⟩ ∧
    formatTSProperty "se" [⟨"int", "x"⟩] "void" =
      .error (.jsError "TypeError"
        "Cannot read properties of undefined (reading \x27toLowerCase\x27)") ∧
    (expandProperty "// TODO: void se(int x)" =
      .untagged "TypeError" "Cannot read properties of undefined (reading \x27toLowerCase\x27)" ∧
     bodyLoop true "Foo" ["// TODO: void se(int x)", "// TODO: bool isChecked()"] emptyFragments =
       bodyLoop true "Foo" ["// TODO: bool isChecked()"] emptyFragments) :=
  ⟨by decide, rfl, rfl,
   untagged_throw_skipped "// TODO: void se(int x)" "Foo" ["// TODO: bool isChecked()"]
     emptyFragments ⟨[⟨"int", "x"⟩], "se", "void"⟩ "TypeError"
     "Cannot read properties of undefined (reading \x27toLowerCase\x27)"
     (by decide) rfl rfl⟩

/-- C1: with a recognized operation-mode header, a body of lines that are
blank or expand successfully, then one line whose expansion fails,
`process` stops at that line and its entire output is the single failure
diagnostic; none of the fragments of the preceding lines are emitted. -/
theorem fail_fast_abort (input headerLine className bad : String)
    (valid rest : List String) (m : FailMessage)
    (hsplit : jsSplitLines input = headerLine :: (valid ++ bad :: rest))
    (hheader : jsTrim headerLine ≠ "")
    (hclass : matchClassName headerLine = some className)
    (hvalid : ∀ l ∈ valid, jsTrim l = "" ∨ (expandMethod className (jsTrim l)).isOk = true)
    (hbad : jsTrim bad ≠ "")
    (hfail : expandMethod className (jsTrim bad) = .failed m) :
    process input = .ok [">>> ERROR: " ++ m.render] := by
  have hskip : skipBlank (jsSplitLines input) = .ok (headerLine, valid ++ bad :: rest) := by
    rw [hsplit]
    simp only [skipBlank, if_neg hheader]
  have hhp : headerPhase input = .ok (some (false, className, valid ++ bad :: rest)) := by
    simp only [headerPhase, hskip, hclass]
  obtain ⟨acc2, hloop⟩ := bodyLoop_ok_prefix className valid (bad :: rest) emptyFragments hvalid
  have hbadstep : bodyLoop false className (bad :: rest) acc2 =
      .inr (">>> ERROR: " ++ m.render) := by
    simp only [bodyLoop, if_neg hbad, Bool.false_eq_true, if_false, hfail]
  simp only [process, hhp, runBatch, hloop, hbadstep]

/-- Witness for C1: one valid signature followed by an unsupported-type
signature; the sole output line is the (object-rendered) diagnostic. -/
theorem fail_fast_abort_witness :
    process "// CLASS: Foo\n// TODO: void setX(int x)\n// TODO: Frobnicator zap()\n" =
      .ok [">>> ERROR: [object Object]"] :=
  fail_fast_abort "// CLASS: Foo\n// TODO: void setX(int x)\n// TODO: Frobnicator zap()\n"
    "// CLASS: Foo" "Foo" "// TODO: Frobnicator zap()"
    ["// TODO: void setX(int x)"] [""]
    (.objMsg (.failedResult
      "Return type \x27Frobnicator\x27 is unknown for signature \x27// TODO: Frobnicator zap()\x27."))
    rfl (by decide) rfl (by decide) (by decide) rfl

/-- C6 (amended): when the batch completes without failure, the class echo
line is printed, each of the three native sections is emitted iff its
fragment collection is non-empty, and the typed-API section is always
emitted (even when its collection is empty); in property mode the three
native collections are empty, so only the typed-API section appears. -/
theorem sections_emission (input : String) (isProp : Bool) (cn : String)
    (body : List String) (frags : Fragments)
    (hhead : headerPhase input = .ok (some (isProp, cn, body)))
    (hloop : bodyLoop isProp cn body emptyFragments = .inl frags) :
    process input = .ok
      (["// CLASS: " ++ cn]
       ++ (if frags.cppDeclaration.length != 0 then
             [sectionSeparator, "// C++ declaration", strJoin frags.cppDeclaration, ""] else [])
       ++ (if frags.napiInitBlock.length != 0 then
             [sectionSeparator, "// Napi declaration", strJoin frags.napiInitBlock, ""] else [])
       ++ (if frags.bodyBlock.length != 0 then
             [sectionSeparator, "// C++ body", strJoin frags.bodyBlock, ""] else [])
       ++ [sectionSeparator, "// TS body", strJoin frags.tsBlock]) ∧
    (isProp = true →
      frags.cppDeclaration = [] ∧ frags.napiInitBlock = [] ∧ frags.bodyBlock = []) := by
  constructor
  · simp only [process, hhead, runBatch, hloop, emitOutput]
  · intro hp
    subst hp
    simpa [emptyFragments] using bodyLoop_prop_natives cn body emptyFragments frags hloop

/-- Witness for C6 (amended) on a property-mode batch: only the class echo
and the typed-API section appear. -/
theorem sections_emission_witness :
    headerPhase "// PROP: Foo\n// TODO: bool isChecked()\n" =
      .ok (some (true, "Foo", ["// TODO: bool isChecked()", ""])) ∧
    bodyLoop true "Foo" ["// TODO: bool isChecked()", ""] emptyFragments =
      .inl ⟨[], [], [],
        ["    isChecked(): boolean \x7b\n        return this.property(\x27isChecked\x27).toBool();\n    \x7d\n"]⟩ ∧
    (process "// PROP: Foo\n// TODO: bool isChecked()\n" = .ok
      ["// CLASS: Foo", sectionSeparator, "// TS body",
       "    isChecked(): boolean \x7b\n        return this.property(\x27isChecked\x27).toBool();\n    \x7d\n"] ∧
     (true = true → ([] : List String) = [] ∧ ([] : List String) = [] ∧ ([] : List String) = [])) :=
  ⟨rfl, rfl,
   sections_emission "// PROP: Foo\n// TODO: bool isChecked()\n" true "Foo"
     ["// TODO: bool isChecked()", ""]
     ⟨[], [], [],
      ["    isChecked(): boolean \x7b\n        return this.property(\x27isChecked\x27).toBool();\n    \x7d\n"]⟩
     rfl rfl⟩

/-- C3: whenever the native body is emitted, it contains the invocation
expression listing the arguments in parsed order, and the per-position
rendering is `*name` exactly when the argument type is in
`DEREFERENCE_TYPES`, `name` unmodified otherwise. -/
theorem deref_invocation_format (cn mn : String) (args : List CppArgument)
    (rt body : String) (h : formatCppMethodBody cn mn args rt = .ok body) :
    (∃ pre post, body = pre ++ ("this->instance->" ++ mn ++ "(" ++
        joinSep ", " (args.map derefArgString) ++ ");\n") ++ post) ∧
    ∀ (i : Nat) (a : CppArgument), args[i]? = some a →
      (args.map derefArgString)[i]? =
        some (if DEREFERENCE_TYPES.contains a.type then "*" ++ a.name else a.name) := by
  constructor
  · cases he : mapME cppArgExtractionNL args.enum with
    | error e =>
      simp only [formatCppMethodBody, he] at h
      exact Except.noConfusion h
    | ok exts =>
      cases hp : cppResultPacking rt with
      | error e =>
        simp only [formatCppMethodBody, he, hp] at h
        exact Except.noConfusion h
      | ok pack =>
        simp only [formatCppMethodBody, he, hp] at h
        cases h
        refine ⟨cppBodyHeader cn mn ++ strJoin exts ++ cppResultDecl rt,
          pack ++ "\n\x7d\n", ?_⟩
        simp [String.append_assoc]
  · intro i a hia
    simp [List.getElem?_map, hia, derefArgString]

/-- Witness for C3 at a signature mixing a dereferenced and a plain
argument: the invocation is `move(*p, x)`. -/
theorem deref_invocation_format_witness :
    formatCppMethodBody "Foo" "move" [⟨"const QPoint", "p"⟩, ⟨"int", "x"⟩] "void" =
      .ok ("\nNapi::Value FooWrap::move(const Napi::CallbackInfo& info) \x7b\n" ++
        "  Napi::Env env = info.Env();\n" ++
        "  QPointWrap* pWrap = Napi::ObjectWrap<QPointWrap>::Unwrap(info[0].As<Napi::Object>());\n" ++
        "  QPoint* p = pWrap->getInternalInstance();\n" ++
        "  int x = info[1].As<Napi::Number>().Int32Value();\n" ++
        "  this->instance->move(*p, x);\n  return env.Null();\n\x7d\n") ∧
    ((∃ pre post,
        ("\nNapi::Value FooWrap::move(const Napi::CallbackInfo& info) \x7b\n" ++
         "  Napi::Env env = info.Env();\n" ++
         "  QPointWrap* pWrap = Napi::ObjectWrap<QPointWrap>::Unwrap(info[0].As<Napi::Object>());\n" ++
         "  QPoint* p = pWrap->getInternalInstance();\n" ++
         "  int x = info[1].As<Napi::Number>().Int32Value();\n" ++
         "  this->instance->move(*p, x);\n  return env.Null();\n\x7d\n") = pre ++
          ("this->instance->" ++ "move" ++ "(" ++
           joinSep ", " (([⟨"const QPoint", "p"⟩, ⟨"int", "x"⟩] : List CppArgument).map
             derefArgString) ++ ");\n") ++ post) ∧
     ∀ (i : Nat) (a : CppArgument),
       ([(⟨"const QPoint", "p"⟩ : CppArgument), ⟨"int", "x"⟩])[i]? = some a →
       (([⟨"const QPoint", "p"⟩, ⟨"int", "x"⟩] : List CppArgument).map derefArgString)[i]? =
         some (if DEREFERENCE_TYPES.contains a.type then "*" ++ a.name else a.name)) :=
  ⟨rfl, deref_invocation_format "Foo" "move" [⟨"const QPoint", "p"⟩, ⟨"int", "x"⟩] "void" _ rfl⟩

/-- C4: whenever operation-mode expansion succeeds, the declaration,
registration, and native-body fragments all reference the one parsed
method name, and the native body both extracts one statement per parsed
argument (same count, in `enum` order) and passes the arguments to the
invocation in parsed order. -/
theorem native_fragments_consistent (cn sig : String) (d n b t : String)
    (h : expandMethod cn sig = .ok (some d) (some n) (some b) (some t)) :
    ∃ ps exts pack,
      parseMethodSignature sig = .ok ps ∧
      d = "  Napi::Value " ++ ps.methodName ++ "(const Napi::CallbackInfo& info);\n" ∧
      n = "       InstanceMethod(\"" ++ ps.methodName ++ "\", &" ++ cn ++ "Wrap::" ++
        ps.methodName ++ "),\n" ∧
      mapME cppArgExtractionNL ps.args.enum = .ok exts ∧
      exts.length = ps.args.length ∧
      cppResultPacking ps.returnType = .ok pack ∧
      b = cppBodyHeader cn ps.methodName ++ strJoin exts ++ cppResultDecl ps.returnType ++
        "this->instance->" ++ ps.methodName ++ "(" ++
        joinSep ", " (ps.args.map derefArgString) ++ ");\n" ++ pack ++ "\n\x7d\n" ∧
      (ps.args.map derefArgString).length = ps.args.length := by
  cases hp : parseMethodSignature sig with
  | error e =>
    simp only [expandMethod, hp] at h
    exact ExpandedMethodResult.noConfusion h
  | ok ps =>
    cases hb : formatCppMethodBody cn ps.methodName ps.args ps.returnType with
    | error e =>
      simp only [expandMethod, hp, hb] at h
      exact ExpandedMethodResult.noConfusion h
    | ok mb =>
      cases ht : formatTSMethod ps.methodName ps.args ps.returnType with
      | error e =>
        simp only [expandMethod, hp, hb, ht] at h
        exact ExpandedMethodResult.noConfusion h
      | ok ts =>
        simp only [expandMethod, hp, hb, ht] at h
        injection h with h1 h2 h3 h4
        injection h1 with h1
        injection h2 with h2
        injection h3 with h3
        subst h1
        subst h2
        subst h3
        cases he : mapME cppArgExtractionNL ps.args.enum with
        | error e =>
          simp only [formatCppMethodBody, he] at hb
          exact Except.noConfusion hb
        | ok exts =>
          cases hpk : cppResultPacking ps.returnType with
          | error e =>
            simp only [formatCppMethodBody, he, hpk] at hb
            exact Except.noConfusion hb
          | ok pack =>
            simp only [formatCppMethodBody, he, hpk] at hb
            injection hb with hb
            refine ⟨ps, exts, pack, rfl, rfl, rfl, he, ?_, hpk, ?_, ?_⟩
            · simpa using mapME_ok_length he
            · rw [hb]
            · simp

/-- Witness for C4 at `// TODO: void setX(int x)` in class `Foo`. -/
theorem native_fragments_consistent_witness :
    expandMethod "Foo" "// TODO: void setX(int x)" =
      .ok (some "  Napi::Value setX(const Napi::CallbackInfo& info);\n")
        (some "       InstanceMethod(\"setX\", &FooWrap::setX),\n")
        (some ("\nNapi::Value FooWrap::setX(const Napi::CallbackInfo& info) \x7b\n" ++
          "  Napi::Env env = info.Env();\n" ++
          "  int x = info[0].As<Napi::Number>().Int32Value();\n" ++
          "  this->instance->setX(x);\n  return env.Null();\n\x7d\n"))
        (some "    setX(x: number): void \x7b\nthis.native.setX(x);\n    \x7d\n") ∧
    (∃ ps exts pack,
      parseMethodSignature "// TODO: void setX(int x)" = .ok ps ∧
      "  Napi::Value setX(const Napi::CallbackInfo& info);\n" =
        "  Napi::Value " ++ ps.methodName ++ "(const Napi::CallbackInfo& info);\n" ∧
      "       InstanceMethod(\"setX\", &FooWrap::setX),\n" =
        "       InstanceMethod(\"" ++ ps.methodName ++ "\", &" ++ "Foo" ++ "Wrap::" ++
        ps.methodName ++ "),\n" ∧
      mapME cppArgExtractionNL ps.args.enum = .ok exts ∧
      exts.length = ps.args.length ∧
      cppResultPacking ps.returnType = .ok pack ∧
      ("\nNapi::Value FooWrap::setX(const Napi::CallbackInfo& info) \x7b\n" ++
       "  Napi::Env env = info.Env();\n" ++
       "  int x = info[0].As<Napi::Number>().Int32Value();\n" ++
       "  this->instance->setX(x);\n  return env.Null();\n\x7d\n") =
        cppBodyHeader "Foo" ps.methodName ++ strJoin exts ++ cppResultDecl ps.returnType ++
        "this->instance->" ++ ps.methodName ++ "(" ++
        joinSep ", " (ps.args.map derefArgString) ++ ");\n" ++ pack ++ "\n\x7d\n" ∧
      (ps.args.map derefArgString).length = ps.args.length) :=
  ⟨rfl, native_fragments_consistent "Foo" "// TODO: void setX(int x)" _ _ _ _ rfl⟩

/-- C5: whenever a property-mode accessor for a void-returning (setter
shaped) method is emitted, its body forwards to the generic
`setProperty` call keyed by the method name with its first three
characters stripped and the next character lower-cased, passing the
parsed argument names in order. -/
theorem property_setter_key (mn : String) (c : Char) (rest : List Char)
    (args : List CppArgument) (ts : String)
    (hdrop : mn.toList.drop 3 = c :: rest)
    (h : formatTSProperty mn args "void" = .ok ts) :
    ∃ pre, ts = pre ++ ("this.setProperty(\x27" ++ String.mk (c.toLower :: rest) ++ "\x27, " ++
      joinSep ", " (args.map CppArgument.name) ++ ");\n") ++ "    \x7d\n" := by
  have h4 : mn.toList.drop 4 = rest := by
    have h14 : mn.toList.drop 4 = (mn.toList.drop 3).drop 1 := by
      rw [List.drop_drop]
    rw [h14, hdrop]
    rfl
  have hkey : jsSetterPropertyKey mn = .ok (String.mk [c.toLower] ++ String.mk rest) := by
    simp only [jsSetterPropertyKey, hdrop, h4]
  have hclause : tsPropertyClause mn args "void" =
      .ok ("this.setProperty(\x27" ++ (String.mk [c.toLower] ++ String.mk rest) ++ "\x27, " ++
        joinSep ", " (args.map CppArgument.name) ++ ");\n") := by
    simp only [tsPropertyClause, hkey]
  cases he : mapME tsParamString args with
  | error e =>
    simp only [formatTSProperty, he] at h
    exact Except.noConfusion h
  | ok params =>
    simp only [formatTSProperty, he,
      show mapCppToTsReturnType "void" = Except.ok "void" from rfl, hclause] at h
    cases h
    refine ⟨"    " ++ formatTSMethodName mn ++ "(" ++ joinSep ", " params ++ "): " ++
      "void" ++ " \x7b\n", ?_⟩
    simp [String.append_assoc, strMk_append]

/-- Witness for C5 at the spec scenario `// PROP: Foo` with
`// TODO: void setEnabled(bool enabled)`: the accessor is keyed
`enabled` and passes `enabled`. -/
theorem property_setter_key_witness :
    "setEnabled".toList.drop 3 = 'E' :: ['n', 'a', 'b', 'l', 'e', 'd'] ∧
    formatTSProperty "setEnabled" [⟨"bool", "enabled"⟩] "void" =
      .ok ("    setEnabled(enabled: boolean): void \x7b\n" ++
        "this.setProperty(\x27enabled\x27, enabled);\n    \x7d\n") ∧
    process "// PROP: Foo\n// TODO: void setEnabled(bool enabled)\n" =
      .ok ["// CLASS: Foo", sectionSeparator, "// TS body",
        "    setEnabled(enabled: boolean): void \x7b\nthis.setProperty(\x27enabled\x27, enabled);\n    \x7d\n"] ∧
    (∃ pre, ("    setEnabled(enabled: boolean): void \x7b\n" ++
        "this.setProperty(\x27enabled\x27, enabled);\n    \x7d\n") = pre ++
      ("this.setProperty(\x27" ++ String.mk ('E'.toLower :: ['n', 'a', 'b', 'l', 'e', 'd']) ++
       "\x27, " ++ joinSep ", " (([⟨"bool", "enabled"⟩] : List CppArgument).map CppArgument.name) ++
       ");\n") ++ "    \x7d\n") :=
  ⟨rfl, rfl, rfl,
   property_setter_key "setEnabled" 'E' ['n', 'a', 'b', 'l', 'e', 'd'] [⟨"bool", "enabled"⟩] _
     rfl rfl⟩
